import Mathlib

/-!
# KetoLens — Food Resolution & Scoring Pipeline, shallow embedding

This file embeds the core of the KetoLens repository in Lean 4 and proves
properties of it: the scoring engine (`src/services/ketoScoring.ts` and
`src/constants/keto.ts`), the retry executor (`src/utils/retry.ts`), the
barcode lookup / product directory client (`src/services/barcodeService.ts`),
and the correction workflow of the result screen (`ResultScreen.handleCorrections`).

Numbers that are JavaScript floats are modelled as `ℚ`; scores are `ℤ`
(every scoring operation is integer-valued before the clamp, and
`Math.round` is modelled by Mathlib's `round`, which is round-half-up
exactly like JS `Math.round`).
-/

/-- `KetoVerdict` from `src/types/index.ts`. -/
inductive KetoVerdict where
  | safe
  | borderline
  | avoid
  | unknown
deriving DecidableEq, Repr

/-- Confidence levels used by `KetoScore`. -/
inductive ConfidenceLevel where
  | high
  | medium
  | low
deriving DecidableEq, Repr

/-- `KetoScore` from `src/types/index.ts`: the value returned by both scorers. -/
structure KetoScore where
  score : ℤ
  verdict : KetoVerdict
  confidence : ConfidenceLevel
deriving DecidableEq, Repr

/-- `SCORE_THRESHOLDS` from `src/constants/keto.ts`. -/
def SCORE_THRESHOLDS_SAFE : ℤ := 80

/-- `SCORE_THRESHOLDS.BORDERLINE` from `src/constants/keto.ts`. -/
def SCORE_THRESHOLDS_BORDERLINE : ℤ := 60

/-- `getVerdict` from `src/constants/keto.ts`. -/
def getVerdict (score : ℤ) : KetoVerdict :=
  if score ≥ SCORE_THRESHOLDS_SAFE then .safe
  else if score ≥ SCORE_THRESHOLDS_BORDERLINE then .borderline
  else .avoid

/-- JavaScript `String.prototype.includes` on character lists:
`needle.isPrefixOf` at some position of the haystack. -/
def hasSubList (needle : List Char) : List Char → Bool
  | [] => needle.isEmpty
  | c :: rest => needle.isPrefixOf (c :: rest) || hasSubList needle rest

/-- `haystack.includes(needle)` for strings. -/
def strIncludes (haystack needle : String) : Bool :=
  hasSubList needle.toList haystack.toList

/-- JavaScript `String.prototype.toLowerCase` (the ingredient data is ASCII,
so ASCII case mapping is the whole behavior). -/
def strToLower (s : String) : String :=
  String.mk (s.data.map Char.toLower)

/-- JavaScript `String.prototype.trim`: strip leading and trailing whitespace. -/
def strTrim (s : String) : String :=
  String.mk (((s.data.dropWhile Char.isWhitespace).reverse.dropWhile
    Char.isWhitespace).reverse)

/-- JavaScript `String.prototype.split` on a character-class regex such as
`/[,;]/`: cut at every delimiter character, keeping empty pieces. -/
def strSplitAux (p : Char → Bool) : List Char → List Char → List String
  | [], acc => [String.mk acc.reverse]
  | c :: rest, acc =>
    if p c then String.mk acc.reverse :: strSplitAux p rest []
    else strSplitAux p rest (c :: acc)

/-- `s.split(/.../)` for a character-class delimiter predicate. -/
def strSplit (s : String) (p : Char → Bool) : List String :=
  strSplitAux p s.data []

/-- `INGREDIENT_PENALTIES` from `src/constants/keto.ts`, in the source's
insertion order (the order `Object.entries` iterates the table in).
Each entry is `(substring, penalty, reason)`. -/
def INGREDIENT_PENALTIES : List (String × ℤ × String) :=
  [ ("sugar", 25, "Pure sugar"),
    ("cane sugar", 25, "Pure sugar"),
    ("brown sugar", 25, "Pure sugar"),
    ("high fructose corn syrup", 30, "Highly processed sugar"),
    ("corn syrup", 25, "Processed sugar"),
    ("agave nectar", 20, "High fructose content"),
    ("honey", 15, "Natural but high carb"),
    ("maple syrup", 15, "Natural but high carb"),
    ("molasses", 20, "High sugar content"),
    ("dextrose", 20, "Sugar form"),
    ("fructose", 20, "Sugar form"),
    ("glucose", 20, "Sugar form"),
    ("sucrose", 25, "Table sugar"),
    ("maltodextrin", 25, "Higher glycemic than sugar"),
    ("cornstarch", 15, "Pure starch"),
    ("modified food starch", 15, "Starch filler"),
    ("potato starch", 15, "High starch"),
    ("tapioca starch", 15, "High starch"),
    ("wheat", 15, "Grain-based carbs"),
    ("wheat flour", 18, "Refined grain"),
    ("enriched wheat flour", 18, "Refined grain"),
    ("bread crumbs", 15, "Wheat-based"),
    ("rice flour", 15, "High carb flour"),
    ("corn flour", 15, "High carb flour"),
    ("oat flour", 12, "Grain flour"),
    ("natural flavors", 5, "Potentially contains hidden carbs"),
    ("artificial flavors", 3, "Minor concern"),
    ("carrageenan", 3, "Controversial additive"),
    ("fruit juice concentrate", 15, "Concentrated sugar"),
    ("evaporated cane juice", 20, "Sugar in disguise"),
    ("rice syrup", 20, "High glycemic"),
    ("barley malt", 15, "Malt sugar") ]

/-- `INGREDIENT_COUNT_PENALTY.THRESHOLD` from `src/constants/keto.ts`. -/
def INGREDIENT_COUNT_THRESHOLD : ℕ := 10

/-- `INGREDIENT_COUNT_PENALTY.PENALTY` from `src/constants/keto.ts`. -/
def INGREDIENT_COUNT_PENALTY : ℤ := 10

/-- The inner loop of `calculateProductScore`: scan `INGREDIENT_PENALTIES`
in table order and take the first entry whose key is a substring of the
(already normalized) ingredient (the loop `break`s on the first match);
an ingredient with no match contributes penalty 0.  The source also pushes
a `ParsedIngredient` record into a local array, but that array is dropped:
`calculateProductScore` returns only `{score, verdict, confidence}`. -/
def ingredientPenalty (ingredient : String) : ℤ :=
  match INGREDIENT_PENALTIES.find? (fun e => strIncludes ingredient e.1) with
  | some e => e.2.1
  | none => 0

/-- `calculateProductScore` from `src/services/ketoScoring.ts`:
start at 100, normalize every ingredient with `toLowerCase().trim()`,
subtract each ingredient's first-match penalty, subtract the flat
over-complexity penalty when the raw list has more than 10 entries,
then clamp to `[0,100]` (`Math.round` is the identity here because the
score stays an integer throughout). -/
def calculateProductScore (ingredients : List String) : KetoScore :=
  let normalizedIngredients := ingredients.map (fun i => strTrim (strToLower i))
  let score := normalizedIngredients.foldl (fun s ing => s - ingredientPenalty ing) 100
  let score :=
    if ingredients.length > INGREDIENT_COUNT_THRESHOLD then
      score - INGREDIENT_COUNT_PENALTY
    else score
  let score := max 0 (min 100 score)
  { score := score, verdict := getVerdict score, confidence := .high }

/-! ## Helper lemmas about the scoring core -/

/-- Subtracting each element's penalty in a left fold equals subtracting the
sum of the penalties. -/
theorem foldl_sub_eq_sub_sum (p : String → ℤ) (l : List String) (a : ℤ) :
    l.foldl (fun s i => s - p i) a = a - (l.map p).sum := by
  induction l generalizing a with
  | nil => simp
  | cons x xs ih => simp [List.foldl_cons, ih, List.map_cons, List.sum_cons]; ring

/-- Characterization of `getVerdict` by the 80/60 thresholds. -/
theorem getVerdict_spec (s : ℤ) :
    (getVerdict s = .safe ↔ 80 ≤ s) ∧
    (getVerdict s = .borderline ↔ 60 ≤ s ∧ s < 80) ∧
    (getVerdict s = .avoid ↔ s < 60) := by
  unfold getVerdict SCORE_THRESHOLDS_SAFE SCORE_THRESHOLDS_BORDERLINE
  split_ifs with h1 h2 <;> simp_all <;> omega

/-- C1: For every list of ingredient strings, `calculateProductScore`
returns a score in `[0,100]` (an integer) and a verdict consistent with
the 80/60 thresholds: `safe` iff `score ≥ 80`, `borderline` iff
`60 ≤ score < 80`, `avoid` otherwise. -/
theorem calculateProductScore_bounds_and_verdict (ingredients : List String) :
    0 ≤ (calculateProductScore ingredients).score ∧
    (calculateProductScore ingredients).score ≤ 100 ∧
    ((calculateProductScore ingredients).verdict = .safe ↔
      80 ≤ (calculateProductScore ingredients).score) ∧
    ((calculateProductScore ingredients).verdict = .borderline ↔
      60 ≤ (calculateProductScore ingredients).score ∧
        (calculateProductScore ingredients).score < 80) ∧
    ((calculateProductScore ingredients).verdict = .avoid ↔
      (calculateProductScore ingredients).score < 60) := by
  have hscore : (calculateProductScore ingredients).score =
      max 0 (min 100 ((if ingredients.length > INGREDIENT_COUNT_THRESHOLD then
        ((ingredients.map (fun i => strTrim (strToLower i))).foldl
          (fun s ing => s - ingredientPenalty ing) 100) - INGREDIENT_COUNT_PENALTY
      else
        (ingredients.map (fun i => strTrim (strToLower i))).foldl
          (fun s ing => s - ingredientPenalty ing) 100))) := by
    unfold calculateProductScore
    split_ifs <;> simp_all
  have hverdict : (calculateProductScore ingredients).verdict =
      getVerdict (calculateProductScore ingredients).score := by
    unfold calculateProductScore
    split_ifs <;> simp_all
  refine ⟨?_, ?_, ?_, ?_, ?_⟩
  · rw [hscore]; exact le_max_left 0 _
  · rw [hscore]; exact max_le (by norm_num) (min_le_left 100 _)
  · rw [hverdict]; exact (getVerdict_spec _).1
  · rw [hverdict]; exact (getVerdict_spec _).2.1
  · rw [hverdict]; exact (getVerdict_spec _).2.2

/-- `List.find?` returns the first element satisfying the predicate: if every
element of `pre` fails `p` and `e` satisfies it, the search over
`pre ++ e :: post` returns `e`. -/
theorem find?_first_of_split {α : Type} (p : α → Bool) (pre : List α) (e : α)
    (post : List α) (hpre : ∀ x ∈ pre, p x = false) (he : p e = true) :
    (pre ++ e :: post).find? p = some e := by
  induction pre with
  | nil => simp [List.find?_cons, he]
  | cons a as ih =>
    have ha : p a = false := hpre a (by simp)
    simpa [List.find?_cons, ha] using ih (fun x hx => hpre x (by simp [hx]))

/-- C6: `calculateProductScore` is order-independent: permuting the
ingredient list leaves the entire result unchanged (the total penalty is a
sum over the list plus a length-based term, both permutation invariants).
It is not duplicate-insensitive: a single "cane sugar" scores 75 (one
penalty of 25 — at most one penalty per ingredient, first match wins even
though "cane sugar" matches two table entries), while listing it twice is
penalized twice, scoring 50. -/
theorem calculateProductScore_perm_invariant (l₁ l₂ : List String)
    (h : l₁.Perm l₂) :
    calculateProductScore l₁ = calculateProductScore l₂ ∧
    (calculateProductScore l₁).score =
      max 0 (min 100 (100 -
        ((l₁.map (fun i => strTrim (strToLower i))).map ingredientPenalty).sum -
        (if l₁.length > INGREDIENT_COUNT_THRESHOLD then
          INGREDIENT_COUNT_PENALTY else 0))) ∧
    (calculateProductScore ["cane sugar"]).score = 75 ∧
    (calculateProductScore ["cane sugar", "cane sugar"]).score = 50 ∧
    (calculateProductScore ["cane sugar", "cane sugar"]).score ≠
      (calculateProductScore ["cane sugar"]).score := by
  refine ⟨?_, ?_, by decide, by decide, by decide⟩
  · unfold calculateProductScore
    simp only [foldl_sub_eq_sub_sum]
    rw [((h.map (fun i => strTrim (strToLower i))).map ingredientPenalty).sum_eq,
      h.length_eq]
  · unfold calculateProductScore
    simp only [foldl_sub_eq_sub_sum]
    split_ifs <;> simp [sub_sub]

/-- Witness for C6 at a concrete permutation. -/
theorem calculateProductScore_perm_invariant_witness :
    calculateProductScore ["water", "cane sugar", "salt"] =
      calculateProductScore ["cane sugar", "water", "salt"] :=
  (calculateProductScore_perm_invariant ["water", "cane sugar", "salt"]
    ["cane sugar", "water", "salt"] (by decide)).1

/-- C7 counterexample: the score-to-verdict mapping applied to score 0 yields
`avoid`, not `unknown`, so a zero-score analysis is not classified `unknown`
by the verdict mapping. -/
theorem getVerdict_zero_not_unknown :
    getVerdict 0 = KetoVerdict.avoid ∧ getVerdict 0 ≠ KetoVerdict.unknown := by
  decide

/-- C7 (amended): the verdict mapping sends score 0 to `avoid`, and in fact
never produces `unknown` for any score; the `unknown` verdict for a
non-food image is supplied upstream by the vision backend (its prompt
instructs "if the image is not food, set verdict to unknown"), not by
`getVerdict`. -/
theorem getVerdict_never_unknown :
    getVerdict 0 = KetoVerdict.avoid ∧
    ∀ s : ℤ, getVerdict s ≠ KetoVerdict.unknown := by
  refine ⟨by decide, fun s => ?_⟩
  unfold getVerdict
  split_ifs <;> decide

/-- C8 counterexample: the normalized ingredient "wheat flour" matches both
the "wheat" entry (penalty 15) and the more specific "wheat flour" entry
(penalty 18) of `INGREDIENT_PENALTIES`, but the scan is in table insertion
order, where "wheat" comes first — so the penalty charged is 15, not the
most specific entry's 18 (the product scores 85, not 82). -/
theorem wheatFlour_penalized_by_wheat_entry :
    ingredientPenalty "wheat flour" = 15 ∧
    strIncludes "wheat flour" "wheat" = true ∧
    strIncludes "wheat flour" "wheat flour" = true ∧
    INGREDIENT_PENALTIES.find? (fun e => e.1 == "wheat flour") =
      some ("wheat flour", 18, "Refined grain") ∧
    (calculateProductScore ["wheat flour"]).score = 85 ∧
    (15 : ℤ) ≠ 18 := by
  decide

/-- C8 (amended): the offender table is scanned in its fixed insertion
order (the order of `Object.entries` on `INGREDIENT_PENALTIES`), and the
first substring match determines the penalty — so an ingredient matching
several entries is penalized by the earliest-listed match, which is not
always the most specific one: "wheat flour" is charged the "wheat" entry's
15 points, not the "wheat flour" entry's 18. -/
theorem ingredientPenalty_first_match_in_table_order (ing : String)
    (pre : List (String × ℤ × String)) (e : String × ℤ × String)
    (post : List (String × ℤ × String))
    (htable : INGREDIENT_PENALTIES = pre ++ e :: post)
    (hpre : ∀ e' ∈ pre, strIncludes ing e'.1 = false)
    (he : strIncludes ing e.1 = true) :
    ingredientPenalty ing = e.2.1 := by
  unfold ingredientPenalty
  rw [htable, find?_first_of_split _ _ _ _ hpre he]

/-- Witness for C8 (amended): "wheat flour" is resolved by the "wheat"
entry, the 19th of the table, every earlier entry failing to match. -/
theorem ingredientPenalty_first_match_witness :
    ingredientPenalty "wheat flour" = 15 :=
  ingredientPenalty_first_match_in_table_order "wheat flour"
    (INGREDIENT_PENALTIES.take 18) ("wheat", 15, "Grain-based carbs")
    (INGREDIENT_PENALTIES.drop 19) (by decide) (by decide) (by decide)

/-! ## Retry executor (`src/utils/retry.ts`) -/

/-- Observable trace of one `withRetry` run: the outcome (`Except.error`
models the rethrown last error), how many times the operation was invoked,
the `onRetry` observer invocations `(attempt, error)` in order, and the
sleeps performed between attempts, in order. -/
structure RetryTrace (T : Type) where
  result : Except String T
  attemptsMade : ℕ
  retryCalls : List (ℕ × String)
  delays : List ℕ

/-- `DEFAULT_OPTIONS.maxRetries` from `src/utils/retry.ts`. -/
def DEFAULT_MAX_RETRIES : ℕ := 3

/-- `DEFAULT_OPTIONS.delayMs` from `src/utils/retry.ts`. -/
def DEFAULT_DELAY_MS : ℕ := 1000

/-- `DEFAULT_OPTIONS.backoff` from `src/utils/retry.ts`. -/
def DEFAULT_BACKOFF : Bool := true

/-- The `for (let attempt = 1; attempt <= maxRetries; attempt++)` loop of
`withRetry`, as recursion on the number of remaining iterations
(`remaining = maxRetries + 1 - attempt`): try `op attempt`; on success
return it; on failure, if this was the last attempt break (the error is
rethrown), otherwise call `onRetry(attempt, error)`, sleep
`backoff ? delayMs * 2^(attempt-1) : delayMs`, and continue.  The
operation is modelled as a function of the attempt number so one run can
fail on some attempts and succeed on others. -/
def runAttempts {T : Type} (op : ℕ → Except String T) (delayMs : ℕ)
    (backoff : Bool) : String → ℕ → ℕ → RetryTrace T
  | lastError, _, 0 => ⟨.error lastError, 0, [], []⟩
  | _, attempt, r + 1 =>
    match op attempt with
    | .ok v => ⟨.ok v, 1, [], []⟩
    | .error e =>
      if r = 0 then ⟨.error e, 1, [], []⟩
      else
        let delay := if backoff then delayMs * 2 ^ (attempt - 1) else delayMs
        let rest := runAttempts op delayMs backoff e (attempt + 1) r
        ⟨rest.result, rest.attemptsMade + 1, (attempt, e) :: rest.retryCalls,
          delay :: rest.delays⟩

/-- `withRetry` from `src/utils/retry.ts`: run the loop from attempt 1 with
`lastError` initialized to `Error('Unknown error')`. -/
def withRetry {T : Type} (op : ℕ → Except String T) (maxRetries delayMs : ℕ)
    (backoff : Bool) : RetryTrace T :=
  runAttempts op delayMs backoff "Unknown error" 1 maxRetries

/-- If the first `k` attempts (from `attempt`) fail and attempt `attempt+k`
succeeds, the loop returns that success, makes `k+1` invocations, and calls
the observer and sleeps exactly `k` times. -/
theorem runAttempts_success {T : Type} (op : ℕ → Except String T)
    (delayMs : ℕ) (backoff : Bool) (v : T) :
    ∀ (k attempt rem : ℕ) (e0 : String),
      k < rem →
      (∀ i, attempt ≤ i → i < attempt + k → ∃ e, op i = Except.error e) →
      op (attempt + k) = Except.ok v →
      (runAttempts op delayMs backoff e0 attempt rem).result = Except.ok v ∧
      (runAttempts op delayMs backoff e0 attempt rem).attemptsMade = k + 1 ∧
      (runAttempts op delayMs backoff e0 attempt rem).retryCalls.length = k ∧
      (runAttempts op delayMs backoff e0 attempt rem).delays.length = k := by
  intro k
  induction k with
  | zero =>
    intro attempt rem e0 hlt _ hok
    obtain ⟨r, rfl⟩ : ∃ r, rem = r + 1 := ⟨rem - 1, by omega⟩
    rw [Nat.add_zero] at hok
    simp [runAttempts, hok]
  | succ k ih =>
    intro attempt rem e0 hlt herr hok
    obtain ⟨r, rfl⟩ : ∃ r, rem = r + 1 := ⟨rem - 1, by omega⟩
    obtain ⟨e, he⟩ := herr attempt (Nat.le_refl _) (by omega)
    have hr : ¬(r = 0) := by omega
    have hrec := ih (attempt + 1) r e (by omega)
      (fun i h1 h2 => herr i (by omega) (by omega))
      (by rw [show attempt + 1 + k = attempt + (k + 1) from by omega]; exact hok)
    simp [runAttempts, he, hr, hrec.1, hrec.2.1, hrec.2.2.1, hrec.2.2.2]

/-- If every attempt fails (attempt `i` with error `er i`), the loop makes
exactly `rem` invocations, rethrows the last error, calls the observer with
`(i, er i)` for every non-final attempt `i`, and sleeps
`delayMs * 2^(i-1)` (or flat `delayMs`) after each non-final attempt. -/
theorem runAttempts_all_fail {T : Type} (op : ℕ → Except String T)
    (delayMs : ℕ) (backoff : Bool) (er : ℕ → String)
    (hop : ∀ i, op i = Except.error (er i)) :
    ∀ (rem attempt : ℕ) (e0 : String),
      1 ≤ rem → 1 ≤ attempt →
      (runAttempts op delayMs backoff e0 attempt rem).result =
        Except.error (er (attempt + rem - 1)) ∧
      (runAttempts op delayMs backoff e0 attempt rem).attemptsMade = rem ∧
      (runAttempts op delayMs backoff e0 attempt rem).retryCalls =
        (List.range' attempt (rem - 1)).map (fun i => (i, er i)) ∧
      (runAttempts op delayMs backoff e0 attempt rem).delays =
        (List.range' attempt (rem - 1)).map
          (fun i => if backoff then delayMs * 2 ^ (i - 1) else delayMs) := by
  intro rem
  induction rem with
  | zero => intro attempt e0 h; omega
  | succ r ih =>
    intro attempt e0 _ hatt
    by_cases hr : r = 0
    · subst hr
      simp [runAttempts, hop attempt]
    · have h1r : 1 ≤ r := by omega
      obtain ⟨hres, hatts, hcalls, hdelays⟩ :=
        ih (attempt + 1) (er attempt) h1r (by omega)
      have hrange : List.range' attempt (r + 1 - 1) =
          attempt :: List.range' (attempt + 1) (r - 1) := by
        rw [Nat.add_sub_cancel]
        conv_lhs => rw [show r = (r - 1) + 1 from by omega]
        rw [List.range'_succ]
      have hlast : attempt + 1 + r - 1 = attempt + (r + 1) - 1 := by omega
      rw [hlast] at hres
      have hunfold : runAttempts op delayMs backoff e0 attempt (r + 1) =
          ⟨(runAttempts op delayMs backoff (er attempt) (attempt + 1) r).result,
            (runAttempts op delayMs backoff (er attempt) (attempt + 1)
              r).attemptsMade + 1,
            (attempt, er attempt) ::
              (runAttempts op delayMs backoff (er attempt) (attempt + 1)
                r).retryCalls,
            (if backoff then delayMs * 2 ^ (attempt - 1) else delayMs) ::
              (runAttempts op delayMs backoff (er attempt) (attempt + 1)
                r).delays⟩ := by
        simp [runAttempts, hop attempt, hr]
      refine ⟨?_, ?_, ?_, ?_⟩
      · rw [hunfold]; exact hres
      · rw [hunfold]; dsimp only; rw [hatts]
      · rw [hunfold]; dsimp only; rw [hcalls, hrange, List.map_cons]
      · rw [hunfold]; dsimp only; rw [hdelays, hrange, List.map_cons]

/-- C4: `withRetry` contract.  If the operation fails on attempts `1..k`
with `k < maxRetries` and succeeds on attempt `k+1`, `withRetry` returns
the success value, invokes the operation `k+1` times and the `onRetry`
observer exactly `k` times.  If the operation always fails, `withRetry`
invokes it exactly `maxRetries` times, rethrows the last error, invokes
the observer exactly on the non-final attempts `1..maxRetries-1` (not on
the final failure), and when backoff is enabled the delay slept after
attempt `i` (before attempt `i+1`) is `delayMs * 2^(i-1)`. -/
theorem withRetry_contract {T : Type} (op : ℕ → Except String T)
    (maxRetries delayMs : ℕ) (backoff : Bool) (k : ℕ) (v : T)
    (er : ℕ → String) :
    (k < maxRetries →
      (∀ i, 1 ≤ i → i ≤ k → ∃ e, op i = Except.error e) →
      op (k + 1) = Except.ok v →
      (withRetry op maxRetries delayMs backoff).result = Except.ok v ∧
      (withRetry op maxRetries delayMs backoff).attemptsMade = k + 1 ∧
      (withRetry op maxRetries delayMs backoff).retryCalls.length = k) ∧
    ((∀ i, op i = Except.error (er i)) → 1 ≤ maxRetries →
      (withRetry op maxRetries delayMs backoff).attemptsMade = maxRetries ∧
      (withRetry op maxRetries delayMs backoff).result =
        Except.error (er maxRetries) ∧
      (withRetry op maxRetries delayMs backoff).retryCalls =
        (List.range' 1 (maxRetries - 1)).map (fun i => (i, er i)) ∧
      (backoff = true →
        (withRetry op maxRetries delayMs backoff).delays =
          (List.range' 1 (maxRetries - 1)).map
            (fun i => delayMs * 2 ^ (i - 1)))) := by
  constructor
  · intro hk herr hok
    have h := runAttempts_success op delayMs backoff v k 1 maxRetries
      "Unknown error" (by omega)
      (fun i h1 h2 => herr i h1 (by omega))
      (by rw [show 1 + k = k + 1 from by omega]; exact hok)
    exact ⟨h.1, h.2.1, h.2.2.1⟩
  · intro hop hmr
    have h := runAttempts_all_fail op delayMs backoff er hop maxRetries 1
      "Unknown error" hmr (Nat.le_refl 1)
    refine ⟨h.2.1, ?_, h.2.2.1, fun hb => ?_⟩
    · simp only [withRetry]
      rw [h.1, show 1 + maxRetries - 1 = maxRetries from by omega]
    · simp only [withRetry]
      rw [h.2.2.2]
      simp [hb]

/-- Witness for C4: a concrete operation that fails once then returns 42,
run with `maxRetries = 3`, and a concrete always-failing operation. -/
theorem withRetry_contract_witness :
    ((withRetry (fun i => if i = 1 then Except.error "boom"
        else Except.ok 42) 3 1000 true).result = Except.ok 42 ∧
      (withRetry (fun i => if i = 1 then Except.error "boom"
        else Except.ok 42) 3 1000 true).attemptsMade = 2 ∧
      (withRetry (fun i => if i = 1 then Except.error "boom"
        else Except.ok 42) 3 1000 true).retryCalls.length = 1) ∧
    ((withRetry (fun _ => (Except.error "down" : Except String ℕ))
        3 1000 true).attemptsMade = 3 ∧
      (withRetry (fun _ => (Except.error "down" : Except String ℕ))
        3 1000 true).result = Except.error "down" ∧
      (withRetry (fun _ => (Except.error "down" : Except String ℕ))
        3 1000 true).retryCalls = [(1, "down"), (2, "down")] ∧
      (withRetry (fun _ => (Except.error "down" : Except String ℕ))
        3 1000 true).delays = [1000, 2000]) := by
  constructor
  · exact (withRetry_contract (fun i => if i = 1 then Except.error "boom"
      else Except.ok 42) 3 1000 true 1 42 (fun _ => "boom")).1
      (by omega) (fun i h1 h2 => ⟨"boom", by
        have hi : i = 1 := by omega
        subst hi; rfl⟩)
      rfl
  · have h := (withRetry_contract (fun _ => (Except.error "down" : Except String ℕ))
      3 1000 true 0 0 (fun _ => "down")).2 (fun _ => rfl) (by omega)
    exact ⟨h.1, h.2.1, by rw [h.2.2.1]; decide, by rw [h.2.2.2 rfl]; decide⟩

/-! ## Barcode service / product directory client (`src/services/barcodeService.ts`) -/

/-- `Macros` from `src/types/index.ts`. -/
structure Macros where
  net_carbs : ℚ
  fat : ℚ
  protein : ℚ
  calories : ℚ
  fiber : Option ℚ
deriving DecidableEq, Repr

/-- The `source` field of `ProductData`. -/
inductive ProductSource where
  | shadow
  | api
  | ocr
  | manual
deriving DecidableEq, Repr

/-- `ProductData` from `src/services/barcodeService.ts` (the optional
`needsOCR` field is modelled as a `Bool` defaulting to `false`, which is
how every consumer treats `undefined`). -/
structure ProductData where
  id : Option String
  found : Bool
  barcode : String
  name : String
  brand : String
  macros : Macros
  ingredients : List String
  ketoScore : ℤ
  ketoVerdict : KetoVerdict
  swapSuggestion : String
  imageUrl : Option String
  imageIngredientsUrl : Option String
  imageNutritionUrl : Option String
  source : ProductSource
  needsOCR : Bool
deriving DecidableEq, Repr

/-- `OpenFoodFactsNutriments`: every field optional, as in the source. -/
structure OpenFoodFactsNutriments where
  carbohydrates_100g : Option ℚ
  fat_100g : Option ℚ
  proteins_100g : Option ℚ
  energy_kcal_100g : Option ℚ
  fiber_100g : Option ℚ
  sugars_100g : Option ℚ
deriving DecidableEq, Repr

/-- `OpenFoodFactsProduct` plus the `(product as any)` fields the client
reads (`completeness`, `image_ingredients_url`, `image_nutrition_url`,
`image_front_url`). -/
structure OpenFoodFactsProduct where
  product_name : Option String
  brands : Option String
  nutriments : Option OpenFoodFactsNutriments
  ingredients_text : Option String
  image_url : Option String
  completeness : Option ℚ
  image_ingredients_url : Option String
  image_nutrition_url : Option String
  image_front_url : Option String
deriving DecidableEq, Repr

/-- `OpenFoodFactsResponse` from `src/services/barcodeService.ts`. -/
structure OpenFoodFactsResponse where
  status : ℤ
  product : Option OpenFoodFactsProduct
deriving DecidableEq, Repr

/-- Behavior of the `fetch`/HTTP/JSON step of `lookupProductFromAPI`.
The three non-`ok` cases are the three ways the `try` block can throw:
the `fetch` call rejecting, `response.ok` being false (the code then
throws `API request failed`), and `response.json()` failing to parse. -/
inductive FetchOutcome where
  | fetchRejected
  | httpNotOk (status : ℕ)
  | jsonInvalid
  | ok (data : OpenFoodFactsResponse)
deriving DecidableEq, Repr

/-- `BARCODE_REGEX = /^[0-9]{8,14}$/` applied by `RegExp.test`. -/
def barcodeValid (b : String) : Bool :=
  decide (8 ≤ b.data.length) && decide (b.data.length ≤ 14) &&
    b.data.all Char.isDigit

/-- JS `x || d` for an optional string: both `undefined` and `""` are falsy. -/
def jsOrStr (x : Option String) (d : String) : String :=
  match x with
  | none => d
  | some s => if s = "" then d else s

/-- JS `x || y` for optional strings, keeping the option. -/
def jsOrOptStr (x y : Option String) : Option String :=
  match x with
  | none => y
  | some s => if s = "" then y else some s

/-- JS `!x` truthiness test for an optional string. -/
def jsFalsyStr (x : Option String) : Bool :=
  match x with
  | none => true
  | some s => s == ""

/-- JS `x || 0` for an optional number (`0` is falsy, so default and zero
coincide). -/
def jsOrQ (x : Option ℚ) : ℚ := x.getD 0

/-- JS `Math.round(q * 10) / 10` (Mathlib's `round` is round-half-up on
ties, exactly like `Math.round`). -/
def roundTo1 (q : ℚ) : ℚ := ((round (q * 10) : ℤ) : ℚ) / 10

/-- JS `Math.round`. -/
def roundQ (q : ℚ) : ℚ := ((round q : ℤ) : ℚ)

/-- JS `barcode.slice(-4)`. -/
def sliceLastFour (s : String) : String :=
  String.mk (s.data.drop (s.data.length - 4))

/-- The ingredient tokenizer of the complete-response branch:
`ingredientsText.split(/[,;]/).map(i => i.trim().toLowerCase()).filter(i => i.length > 0)`. -/
def parseIngredientsText (t : String) : List String :=
  ((strSplit t (fun c => c == ',' || c == ';')).map
    (fun i => strToLower (strTrim i))).filter (fun i => 0 < i.data.length)

/-- The invalid-barcode terminal result of `lookupProduct` (layer 0). -/
def invalidBarcodeResult (barcode : String) : ProductData :=
  { id := none, found := false, barcode := barcode, name := "Invalid barcode",
    brand := "", macros := ⟨0, 0, 0, 0, none⟩, ingredients := [],
    ketoScore := 0, ketoVerdict := .avoid,
    swapSuggestion := "Please scan a valid product barcode (8-14 digits).",
    imageUrl := none, imageIngredientsUrl := none, imageNutritionUrl := none,
    source := .api, needsOCR := false }

/-- The not-found terminal result of `lookupProductFromAPI` (`status !== 1`
or missing product object). -/
def productNotFoundResult (barcode : String) : ProductData :=
  { id := none, found := false, barcode := barcode,
    name := "Product not found", brand := "",
    macros := ⟨0, 0, 0, 0, none⟩, ingredients := [],
    ketoScore := 0, ketoVerdict := .avoid,
    swapSuggestion := "We couldn't find this product in our database. Try a different item or scan a meal instead.",
    imageUrl := none, imageIngredientsUrl := none, imageNutritionUrl := none,
    source := .api, needsOCR := false }

/-- The catch-block result of `lookupProductFromAPI`: any thrown error is
converted into this fixed "Lookup failed" result. -/
def lookupFailedResult (barcode : String) : ProductData :=
  { id := none, found := false, barcode := barcode, name := "Lookup failed",
    brand := "", macros := ⟨0, 0, 0, 0, none⟩, ingredients := [],
    ketoScore := 0, ketoVerdict := .avoid,
    swapSuggestion := "Unable to fetch product data. Please check your connection and try again.",
    imageUrl := none, imageIngredientsUrl := none, imageNutritionUrl := none,
    source := .api, needsOCR := false }

/-- `generateSwapSuggestion` from `src/services/barcodeService.ts`. -/
def generateSwapSuggestion (score : ℤ) (netCarbs : ℚ)
    (ingredients : List String) : String :=
  if score ≥ 85 then
    "Excellent keto choice! This product fits well within your daily carb limit."
  else if score ≥ 75 then
    "Good pick! Watch your portion size to stay within your carb budget."
  else
    let hasSugar := ingredients.any (fun i =>
      strIncludes i "sugar" || strIncludes i "syrup" ||
      strIncludes i "dextrose" || strIncludes i "maltodextrin")
    let hasSeedOils := ingredients.any (fun i =>
      strIncludes i "canola" || strIncludes i "soybean oil" ||
      strIncludes i "sunflower oil" || strIncludes i "vegetable oil")
    if hasSugar && decide (netCarbs > 10) then
      "High sugar content. Look for a sugar-free or stevia-sweetened alternative."
    else if hasSeedOils then
      "Contains inflammatory seed oils. Try a version made with olive oil or avocado oil."
    else if netCarbs > 15 then
      toString netCarbs ++ "g net carbs per 100g is too high. Look for a lower-carb alternative."
    else
      "Consider a cleaner keto option with fewer processed ingredients."

/-- The body of `lookupProductFromAPI` after a successful fetch and JSON
parse: branch on found / found-but-incomplete / found-and-complete, exactly
as in the source (nothing in this part of the `try` block can throw). -/
def handleOFFResponse (barcode : String) (data : OpenFoodFactsResponse) :
    ProductData :=
  match data.product with
  | none => productNotFoundResult barcode
  | some product =>
    if data.status ≠ 1 then productNotFoundResult barcode
    else
      let completeness := jsOrQ product.completeness
      let isVeryIncomplete : Bool := decide (completeness < 1/2)
      let imageIngredientsUrl := product.image_ingredients_url
      let imageNutritionUrl := product.image_nutrition_url
      let imageFrontUrl := jsOrOptStr product.image_front_url product.image_url
      let nutriments := product.nutriments.getD ⟨none, none, none, none, none, none⟩
      let hasNutritionData : Bool := !isVeryIncomplete &&
        (nutriments.carbohydrates_100g.isSome ||
          nutriments.fat_100g.isSome || nutriments.proteins_100g.isSome)
      if !hasNutritionData || isVeryIncomplete then
        { id := none, found := true, barcode := barcode,
          name := jsOrStr product.product_name "Scanned product",
          brand := jsOrStr product.brands "",
          macros := ⟨0, 0, 0, 0, none⟩, ingredients := [],
          ketoScore := 50, ketoVerdict := .borderline,
          swapSuggestion := "Analyzing label images for better accuracy...",
          imageUrl := imageFrontUrl,
          imageIngredientsUrl := imageIngredientsUrl,
          imageNutritionUrl := imageNutritionUrl,
          source := .api, needsOCR := true }
      else
        let totalCarbs := jsOrQ nutriments.carbohydrates_100g
        let fiber := jsOrQ nutriments.fiber_100g
        let netCarbs := max 0 (totalCarbs - fiber)
        let macros : Macros :=
          { net_carbs := roundTo1 netCarbs,
            fat := roundTo1 (jsOrQ nutriments.fat_100g),
            protein := roundTo1 (jsOrQ nutriments.proteins_100g),
            calories := roundQ (jsOrQ nutriments.energy_kcal_100g),
            fiber := some (roundTo1 fiber) }
        let ingredients := parseIngredientsText (product.ingredients_text.getD "")
        let ketoResult := calculateProductScore ingredients
        let adjustedScore :=
          if netCarbs > 20 then max 0 (ketoResult.score - 30)
          else if netCarbs > 10 then max 0 (ketoResult.score - 15)
          else if netCarbs > 5 then max 0 (ketoResult.score - 5)
          else ketoResult.score
        let swapSuggestion := generateSwapSuggestion adjustedScore netCarbs ingredients
        let productName := product.product_name
        let productName :=
          if jsFalsyStr productName && !jsFalsyStr product.brands then
            product.brands
          else productName
        let productName :=
          if jsFalsyStr productName then
            some ("Product #" ++ sliceLastFour barcode)
          else productName
        { id := none, found := true, barcode := barcode,
          name := jsOrStr productName "Scanned product",
          brand := jsOrStr product.brands "",
          macros := macros, ingredients := ingredients,
          ketoScore := adjustedScore,
          ketoVerdict :=
            if adjustedScore ≥ 75 then .safe
            else if adjustedScore ≥ 50 then .borderline
            else .avoid,
          swapSuggestion := swapSuggestion,
          imageUrl := imageFrontUrl,
          imageIngredientsUrl := imageIngredientsUrl,
          imageNutritionUrl := imageNutritionUrl,
          source := .api,
          needsOCR := isVeryIncomplete || decide (ingredients.length = 0) }

/-- `lookupProductFromAPI`: the whole body sits in a `try`, whose catch
block returns the fixed `lookupFailedResult`; the three throwing steps are
the cases of `FetchOutcome`. -/
def lookupProductFromAPI (barcode : String) (fetch : FetchOutcome) :
    ProductData :=
  match fetch with
  | .fetchRejected => lookupFailedResult barcode
  | .httpNotOk _ => lookupFailedResult barcode
  | .jsonInvalid => lookupFailedResult barcode
  | .ok data => handleOFFResponse barcode data

/-- `ShadowKetoAnalysis` from `src/services/shadowDbService.ts` (the
`offenders` and `structural_penalties` arrays are never read by
`lookupProduct` and are omitted). -/
structure ShadowKetoAnalysis where
  id : String
  product_id : String
  keto_score : ℤ
  verdict : KetoVerdict
  ruleset_version : String
deriving DecidableEq, Repr

/-- `ShadowProduct` from `src/services/shadowDbService.ts`; the fields
`lookupProduct` reads defensively (`|| fallback`) are optional. -/
structure ShadowProduct where
  id : String
  barcode : Option String
  country_code : String
  product_name : Option String
  brand : Option String
  ingredients_raw : String
  ingredients_normalized : Option (List String)
  source : String
  confidence_level : String
  last_seen_at : String
  keto_analysis : Option ShadowKetoAnalysis
deriving DecidableEq, Repr

/-- Behavior of `ShadowDbService.lookupByBarcode` as seen by
`lookupProduct`: it can throw (`Except.error`), miss (`Except.ok none`)
or return a record. -/
abbrev CacheOutcome := Except Unit (Option ShadowProduct)

/-- Behavior of `ShadowDbService.saveProduct` as seen by `lookupProduct`:
it can throw or succeed; its return value is not used. -/
abbrev SaveOutcome := Except Unit Unit

/-- Result of one `lookupProduct` run together with which collaborators
were invoked: whether the shadow-DB lookup ran, whether the network fetch
ran, and whether a shadow-DB save was attempted. -/
structure LookupTrace where
  result : ProductData
  cacheCalled : Bool
  fetchCalled : Bool
  saveAttempted : Bool
deriving DecidableEq, Repr

/-- The shadow-DB cache-hit result of `lookupProduct` (layer 1): cached
score, verdict and normalized ingredients, but macros fixed to all zeros
(the source comments "Macros might need separate table in future"). -/
def shadowHitResult (barcode : String) (cached : ShadowProduct)
    (ka : ShadowKetoAnalysis) : ProductData :=
  { id := some cached.id, found := true,
    barcode := jsOrStr cached.barcode barcode,
    name := jsOrStr cached.product_name ("Product #" ++ sliceLastFour barcode),
    brand := jsOrStr cached.brand "",
    macros := ⟨0, 0, 0, 0, none⟩,
    ingredients := cached.ingredients_normalized.getD [],
    ketoScore := ka.keto_score,
    ketoVerdict := ka.verdict,
    swapSuggestion := generateSwapSuggestion ka.keto_score 0
      (cached.ingredients_normalized.getD []),
    imageUrl := none, imageIngredientsUrl := none, imageNutritionUrl := none,
    source := .shadow, needsOCR := false }

/-- Layer 2 of `lookupProduct`: call `lookupProductFromAPI`; when the API
result is `found`, attempt the shadow-DB save, whose failure is caught and
only logged (the returned result is the API result either way). -/
def lookupProductApiPhase (barcode : String) (fetch : FetchOutcome)
    (save : SaveOutcome) : LookupTrace :=
  let apiResult := lookupProductFromAPI barcode fetch
  if apiResult.found then
    match save with
    | .ok _ => ⟨apiResult, true, true, true⟩
    | .error _ => ⟨apiResult, true, true, true⟩
  else ⟨apiResult, true, true, false⟩

/-- `lookupProduct` from `src/services/barcodeService.ts`: layer 0
validates the barcode shape and returns the terminal invalid result
without touching cache or network; layer 1 consults the shadow DB inside a
`try` (a throw is caught and falls through to layer 2) and returns the
cache-hit result when the record carries a non-null `keto_analysis`;
layer 2 is the API fetch plus best-effort save. -/
def lookupProduct (barcode : String) (cache : CacheOutcome)
    (fetch : FetchOutcome) (save : SaveOutcome) : LookupTrace :=
  if !barcodeValid barcode then
    ⟨invalidBarcodeResult barcode, false, false, false⟩
  else
    match cache with
    | .ok (some cached) =>
      match cached.keto_analysis with
      | some ka => ⟨shadowHitResult barcode cached ka, true, false, false⟩
      | none => lookupProductApiPhase barcode fetch save
    | .ok none => lookupProductApiPhase barcode fetch save
    | .error _ => lookupProductApiPhase barcode fetch save

/-- Does this cache outcome produce a layer-1 hit (a record with a
non-null `keto_analysis`)?  Throws and misses both fall through. -/
def cacheHasHit : CacheOutcome → Bool
  | .ok (some cached) => cached.keto_analysis.isSome
  | _ => false

/-- Did the fetch step end in a thrown error (any of the three throwing
cases of the `try` block)? -/
def fetchFailed : FetchOutcome → Bool
  | .ok _ => false
  | _ => true

/-- `roundTo1` preserves non-negativity. -/
theorem roundTo1_nonneg (q : ℚ) (h : 0 ≤ q) : 0 ≤ roundTo1 q := by
  unfold roundTo1
  have hz : (0 : ℤ) ≤ round (q * 10) := by
    rw [round_eq]
    exact Int.floor_nonneg.mpr (by linarith)
  exact div_nonneg (by exact_mod_cast hz) (by norm_num)

/-- C2: a found directory response (`status = 1`, product present) whose
declared completeness is below 0.5 always yields the neutral
found-but-incomplete result: `needsOCR = true`, score exactly 50, verdict
`borderline` — whatever partial macro fields the response carries. -/
theorem directoryClient_incomplete_neutral (barcode : String)
    (data : OpenFoodFactsResponse) (p : OpenFoodFactsProduct)
    (hstatus : data.status = 1) (hp : data.product = some p)
    (hincomplete : jsOrQ p.completeness < 1/2) :
    (lookupProductFromAPI barcode (.ok data)).found = true ∧
    (lookupProductFromAPI barcode (.ok data)).needsOCR = true ∧
    (lookupProductFromAPI barcode (.ok data)).ketoScore = 50 ∧
    (lookupProductFromAPI barcode (.ok data)).ketoVerdict = .borderline := by
  have hiv : jsOrQ p.completeness < 2⁻¹ := by
    rw [← one_div]; exact hincomplete
  simp [lookupProductFromAPI, handleOFFResponse, hp, hstatus, hiv]


/-- A concrete under-half-complete directory product: completeness 0.3,
carrying partial macros (carbs and fat present). -/
def c2Product : OpenFoodFactsProduct :=
  { product_name := some "Chocolate bar", brands := some "BrandX",
    nutriments := some
      { carbohydrates_100g := some 30, fat_100g := some 10,
        proteins_100g := none, energy_kcal_100g := none,
        fiber_100g := none, sugars_100g := none },
    ingredients_text := some "sugar, cocoa",
    image_url := some "front.jpg",
    completeness := some (3/10),
    image_ingredients_url := some "ing.jpg",
    image_nutrition_url := none, image_front_url := none }

/-- A found response wrapping `c2Product`. -/
def c2Response : OpenFoodFactsResponse :=
  { status := 1, product := some c2Product }

/-- Witness for C2 at `c2Response` (completeness 0.3, partial macros). -/
theorem directoryClient_incomplete_neutral_witness :
    (lookupProductFromAPI "00000000" (.ok c2Response)).found = true ∧
    (lookupProductFromAPI "00000000" (.ok c2Response)).needsOCR = true ∧
    (lookupProductFromAPI "00000000" (.ok c2Response)).ketoScore = 50 ∧
    (lookupProductFromAPI "00000000" (.ok c2Response)).ketoVerdict =
      .borderline :=
  directoryClient_incomplete_neutral "00000000" c2Response c2Product rfl rfl
    (by norm_num [c2Product, jsOrQ])

/-- C3: `lookupProduct` never throws to its caller — both failure families
collapse to fixed result objects.  A barcode that is not an 8–14 digit
string yields the terminal invalid-input result (found = false, score 0,
verdict `avoid`) with neither the cache nor the network consulted; and
whenever the cache does not hit and the fetch step throws (rejection, HTTP
error, or JSON parse failure), the returned result is the fixed
"Lookup failed" object with verdict `avoid` and the retry suggestion. -/
theorem lookupProduct_error_contract (barcode : String)
    (cache : CacheOutcome) (fetch : FetchOutcome) (save : SaveOutcome) :
    (barcodeValid barcode = false →
      lookupProduct barcode cache fetch save =
        ⟨invalidBarcodeResult barcode, false, false, false⟩ ∧
      (invalidBarcodeResult barcode).found = false ∧
      (invalidBarcodeResult barcode).ketoScore = 0 ∧
      (invalidBarcodeResult barcode).ketoVerdict = .avoid) ∧
    (barcodeValid barcode = true → cacheHasHit cache = false →
      fetchFailed fetch = true →
      (lookupProduct barcode cache fetch save).result =
        lookupFailedResult barcode ∧
      (lookupFailedResult barcode).found = false ∧
      (lookupFailedResult barcode).name = "Lookup failed" ∧
      (lookupFailedResult barcode).ketoVerdict = .avoid ∧
      (lookupFailedResult barcode).swapSuggestion =
        "Unable to fetch product data. Please check your connection and try again.") := by
  constructor
  · intro hv
    exact ⟨by simp [lookupProduct, hv], rfl, rfl, rfl⟩
  · intro hv hc hf
    have hapi : lookupProductFromAPI barcode fetch = lookupFailedResult barcode := by
      cases fetch <;> simp_all [lookupProductFromAPI, fetchFailed]
    have hphase : lookupProductApiPhase barcode fetch save =
        ⟨lookupFailedResult barcode, true, true, false⟩ := by
      simp [lookupProductApiPhase, hapi, lookupFailedResult]
    refine ⟨?_, rfl, rfl, rfl, rfl⟩
    match cache with
    | .error _ => simp [lookupProduct, hv, hphase]
    | .ok none => simp [lookupProduct, hv, hphase]
    | .ok (some cached) =>
      have hka : cached.keto_analysis = none := by
        simp [cacheHasHit] at hc
        exact hc
      simp [lookupProduct, hv, hka, hphase]

/-- Witness for C3: the non-numeric barcode "abc" short-circuits with no
collaborator calls, and a valid barcode whose cache misses and whose fetch
rejects yields the fixed "Lookup failed" result. -/
theorem lookupProduct_error_contract_witness :
    (lookupProduct "abc" (.ok none) .fetchRejected (.ok ()) =
      ⟨invalidBarcodeResult "abc", false, false, false⟩) ∧
    (lookupProduct "12345678" (.ok none) .fetchRejected (.ok ())).result =
      lookupFailedResult "12345678" :=
  ⟨((lookupProduct_error_contract "abc" (.ok none) .fetchRejected (.ok ())).1
      (by decide)).1,
    ((lookupProduct_error_contract "12345678" (.ok none) .fetchRejected
      (.ok ())).2 (by decide) rfl rfl).1⟩

/-- C9: on a found-and-complete directory response with non-negative
total-carb and fiber values, the net carbs are computed as
`max(0, total_carbs - fiber)` — hence non-negative even when fiber exceeds
total carbs (in which case they are exactly 0) — and the returned
`net_carbs`, `fat`, `protein` and `fiber` macro values are rounded to one
decimal place. -/
theorem directoryClient_complete_macros (barcode : String)
    (data : OpenFoodFactsResponse) (p : OpenFoodFactsProduct)
    (n : OpenFoodFactsNutriments)
    (hstatus : data.status = 1) (hp : data.product = some p)
    (hn : p.nutriments = some n)
    (hcompl : ¬jsOrQ p.completeness < 1/2)
    (hfields : n.carbohydrates_100g.isSome ∨ n.fat_100g.isSome ∨
      n.proteins_100g.isSome)
    (hcarb : 0 ≤ jsOrQ n.carbohydrates_100g)
    (hfiber : 0 ≤ jsOrQ n.fiber_100g) :
    (lookupProductFromAPI barcode (.ok data)).macros.net_carbs =
      roundTo1 (max 0 (jsOrQ n.carbohydrates_100g - jsOrQ n.fiber_100g)) ∧
    0 ≤ (lookupProductFromAPI barcode (.ok data)).macros.net_carbs ∧
    (lookupProductFromAPI barcode (.ok data)).macros.fat =
      roundTo1 (jsOrQ n.fat_100g) ∧
    (lookupProductFromAPI barcode (.ok data)).macros.protein =
      roundTo1 (jsOrQ n.proteins_100g) ∧
    (lookupProductFromAPI barcode (.ok data)).macros.fiber =
      some (roundTo1 (jsOrQ n.fiber_100g)) ∧
    (jsOrQ n.carbohydrates_100g < jsOrQ n.fiber_100g →
      (lookupProductFromAPI barcode (.ok data)).macros.net_carbs = 0) := by
  have hiv : ¬jsOrQ p.completeness < 2⁻¹ := by
    rw [← one_div]; exact hcompl
  have hmac : (lookupProductFromAPI barcode (.ok data)).macros =
      { net_carbs := roundTo1 (max 0 (jsOrQ n.carbohydrates_100g -
          jsOrQ n.fiber_100g)),
        fat := roundTo1 (jsOrQ n.fat_100g),
        protein := roundTo1 (jsOrQ n.proteins_100g),
        calories := roundQ (jsOrQ n.energy_kcal_100g),
        fiber := some (roundTo1 (jsOrQ n.fiber_100g)) } := by
    rcases hfields with h | h | h <;>
      simp [lookupProductFromAPI, handleOFFResponse, hp, hstatus, hn, hiv, h]
  refine ⟨by rw [hmac], ?_, by rw [hmac], by rw [hmac], by rw [hmac], ?_⟩
  · rw [hmac]
    exact roundTo1_nonneg _ (le_max_left 0 _)
  · intro hlt
    rw [hmac]
    have hmax : max 0 (jsOrQ n.carbohydrates_100g - jsOrQ n.fiber_100g) = 0 :=
      max_eq_left (by linarith)
    simp [hmax, roundTo1, round_zero]

/-- A concrete complete nutriments record: carbs 4.2/100g, fiber 6.4/100g
(fiber exceeds carbs), fat 33.35, protein 2. -/
def c9Nutriments : OpenFoodFactsNutriments :=
  { carbohydrates_100g := some (21/5), fat_100g := some (667/20),
    proteins_100g := some 2, energy_kcal_100g := some 613,
    fiber_100g := some (32/5), sugars_100g := none }

/-- A concrete complete directory product: completeness 0.9. -/
def c9Product : OpenFoodFactsProduct :=
  { product_name := some "Nut butter", brands := some "BrandY",
    nutriments := some c9Nutriments,
    ingredients_text := some "almonds; sea salt",
    image_url := none, completeness := some (9/10),
    image_ingredients_url := none, image_nutrition_url := none,
    image_front_url := none }

/-- A found response wrapping `c9Product`. -/
def c9Response : OpenFoodFactsResponse :=
  { status := 1, product := some c9Product }

/-- Witness for C9 at `c9Response`: fiber (6.4) exceeds carbs (4.2), so net
carbs come out 0; fat 33.35 rounds half-up to 33.4 and fiber stays 6.4. -/
theorem directoryClient_complete_macros_witness :
    (lookupProductFromAPI "11111111" (.ok c9Response)).macros.net_carbs = 0 ∧
    (lookupProductFromAPI "11111111" (.ok c9Response)).macros.fat = 167/5 ∧
    (lookupProductFromAPI "11111111" (.ok c9Response)).macros.protein = 2 ∧
    (lookupProductFromAPI "11111111" (.ok c9Response)).macros.fiber =
      some (32/5) := by
  have h := directoryClient_complete_macros "11111111" c9Response c9Product
    c9Nutriments rfl rfl rfl (by norm_num [c9Product, jsOrQ])
    (Or.inl rfl) (by norm_num [c9Nutriments, jsOrQ])
    (by norm_num [c9Nutriments, jsOrQ])
  refine ⟨h.2.2.2.2.2 (by norm_num [c9Nutriments, jsOrQ]), ?_, ?_, ?_⟩
  · rw [h.2.2.1]
    have : jsOrQ c9Nutriments.fat_100g = 667/20 := by norm_num [c9Nutriments, jsOrQ]
    rw [this]
    unfold roundTo1
    rw [show ((667 : ℚ)/20 * 10) = 667/2 from by norm_num, round_eq,
      show ((667 : ℚ)/2 + 1/2) = ((334 : ℤ) : ℚ) from by norm_num,
      Int.floor_intCast]
    norm_num
  · rw [h.2.2.2.1]
    have : jsOrQ c9Nutriments.proteins_100g = 2 := by norm_num [c9Nutriments, jsOrQ]
    rw [this]
    unfold roundTo1
    rw [show ((2 : ℚ) * 10) = ((20 : ℤ) : ℚ) from by norm_num, round_intCast]
    norm_num
  · rw [h.2.2.2.2.1]
    have : jsOrQ c9Nutriments.fiber_100g = 32/5 := by norm_num [c9Nutriments, jsOrQ]
    rw [this]
    unfold roundTo1
    rw [show ((32 : ℚ)/5 * 10) = ((64 : ℤ) : ℚ) from by norm_num, round_intCast]
    norm_num

/-- C10: a resolution that hits the cache (shadow-DB record with non-null
`keto_analysis`) returns the cached score, verdict and normalized
ingredients, but its macros are always all zero — cached results never
carry macro-nutrient estimates. -/
theorem lookupProduct_cache_hit_zero_macros (barcode : String)
    (fetch : FetchOutcome) (save : SaveOutcome)
    (cached : ShadowProduct) (ka : ShadowKetoAnalysis)
    (hv : barcodeValid barcode = true)
    (hka : cached.keto_analysis = some ka) :
    (lookupProduct barcode (.ok (some cached)) fetch save).result.macros =
      ⟨0, 0, 0, 0, none⟩ ∧
    (lookupProduct barcode (.ok (some cached)) fetch save).result.ketoScore =
      ka.keto_score ∧
    (lookupProduct barcode (.ok (some cached)) fetch save).result.ketoVerdict =
      ka.verdict ∧
    (lookupProduct barcode (.ok (some cached)) fetch save).result.ingredients =
      cached.ingredients_normalized.getD [] ∧
    (lookupProduct barcode (.ok (some cached)) fetch save).result.found = true ∧
    (lookupProduct barcode (.ok (some cached)) fetch save).result.source =
      .shadow ∧
    (lookupProduct barcode (.ok (some cached)) fetch save).fetchCalled = false := by
  have hres : lookupProduct barcode (.ok (some cached)) fetch save =
      ⟨shadowHitResult barcode cached ka, true, false, false⟩ := by
    simp [lookupProduct, hv, hka]
  rw [hres]
  exact ⟨rfl, rfl, rfl, rfl, rfl, rfl, rfl⟩

/-- A concrete cached shadow-DB record with an attached analysis. -/
def c10Analysis : ShadowKetoAnalysis :=
  { id := "a1", product_id := "p1", keto_score := 82, verdict := .safe,
    ruleset_version := "v1" }

/-- A concrete cached shadow product carrying `c10Analysis`. -/
def c10Cached : ShadowProduct :=
  { id := "p1", barcode := some "40084400", country_code := "US",
    product_name := some "Sparkling water", brand := some "BrandZ",
    ingredients_raw := "carbonated water",
    ingredients_normalized := some ["carbonated water"],
    source := "api", confidence_level := "high",
    last_seen_at := "2024-01-01", keto_analysis := some c10Analysis }

/-- Witness for C10 at `c10Cached`: the cache hit surfaces score 82 and
verdict `safe` but all-zero macros. -/
theorem lookupProduct_cache_hit_zero_macros_witness :
    (lookupProduct "40084400" (.ok (some c10Cached)) .fetchRejected
      (.ok ())).result.macros = ⟨0, 0, 0, 0, none⟩ ∧
    (lookupProduct "40084400" (.ok (some c10Cached)) .fetchRejected
      (.ok ())).result.ketoScore = 82 ∧
    (lookupProduct "40084400" (.ok (some c10Cached)) .fetchRejected
      (.ok ())).result.ketoVerdict = .safe := by
  have h := lookupProduct_cache_hit_zero_macros "40084400" .fetchRejected
    (.ok ()) c10Cached c10Analysis (by decide) rfl
  exact ⟨h.1, h.2.1, h.2.2.1⟩

/-! ## Correction workflow (`ResultScreen.handleCorrections`) -/

/-- `carb_risk` of a `DetectedFood` (`src/types/index.ts`). -/
inductive CarbRisk where
  | high
  | medium
  | low
deriving DecidableEq, Repr

/-- `DetectedFood` from `src/types/index.ts`. -/
structure DetectedFood where
  name : String
  confidence : ℚ
  estimated_portion : Option String
  carb_risk : CarbRisk
  is_keto_offender : Bool
deriving DecidableEq, Repr

/-- The `action` field of a `CorrectionResult`. -/
inductive CorrectionAction where
  | confirmed
  | removed
  | replaced
deriving DecidableEq, Repr

/-- `CorrectionResult` from `CorrectionSheet`. -/
structure CorrectionResult where
  originalFood : DetectedFood
  action : CorrectionAction
  replacementName : Option String
deriving DecidableEq, Repr

/-- The per-food body of the `foods.map(...)` in `handleCorrections`:
find the first correction whose `originalFood.name` matches, return `null`
(`none`) for `removed`, substitute the name for `replaced` with a truthy
replacement, and pass the food through otherwise. -/
def applyCorrection (corrections : List CorrectionResult)
    (food : DetectedFood) : Option DetectedFood :=
  match corrections.find? (fun c => c.originalFood.name == food.name) with
  | none => some food
  | some c =>
    match c.action, c.replacementName with
    | .removed, _ => none
    | .replaced, some r =>
      if r = "" then some food else some { food with name := r }
    | _, _ => some food

/-- The outcome of one `handleCorrections` call: the rebuilt food list and
the adjusted score/verdict state. -/
structure CorrectionOutcome where
  updatedFoods : List DetectedFood
  newScore : ℤ
  newVerdict : KetoVerdict
deriving DecidableEq, Repr

/-- `handleCorrections` from `ResultScreen`: rebuild the food list
(`map` + `filter(Boolean)` is `filterMap`), add 5 points per `removed`
correction capped at 100, and promote `borderline` to `safe` exactly when
the adjusted score reaches 75 (the verdict is otherwise left unchanged). -/
def handleCorrections (foods : List DetectedFood)
    (corrections : List CorrectionResult) (currentScore : ℤ)
    (currentVerdict : KetoVerdict) : CorrectionOutcome :=
  let updatedFoods := foods.filterMap (applyCorrection corrections)
  let removedCount :=
    (corrections.filter (fun c => c.action == .removed)).length
  let newScore := min 100 (currentScore + (removedCount : ℤ) * 5)
  let newVerdict :=
    if newScore ≥ 75 ∧ currentVerdict = .borderline then .safe
    else currentVerdict
  ⟨updatedFoods, newScore, newVerdict⟩

/-- Is this food marked removed (by the first correction matching its
name)? -/
def isMarkedRemoved (corrections : List CorrectionResult)
    (food : DetectedFood) : Bool :=
  match corrections.find? (fun c => c.originalFood.name == food.name) with
  | some c => c.action == .removed
  | none => false

/-- The name substitution a food's first matching correction prescribes
(identity for confirmed/unmatched foods and falsy replacement names). -/
def renameFood (corrections : List CorrectionResult)
    (food : DetectedFood) : DetectedFood :=
  match corrections.find? (fun c => c.originalFood.name == food.name) with
  | none => food
  | some c =>
    match c.action, c.replacementName with
    | .replaced, some r => if r = "" then food else { food with name := r }
    | _, _ => food

/-- `applyCorrection` drops exactly the foods marked removed and renames
the survivors. -/
theorem applyCorrection_characterization (corrections : List CorrectionResult)
    (f : DetectedFood) :
    applyCorrection corrections f =
      if isMarkedRemoved corrections f then none
      else some (renameFood corrections f) := by
  unfold applyCorrection isMarkedRemoved renameFood
  cases hfind : corrections.find? (fun c => c.originalFood.name == f.name) with
  | none => simp
  | some c =>
    cases hact : c.action <;> cases hrep : c.replacementName <;>
      simp [hact, hrep]
    split_ifs <;> rfl

/-- Rebuilding by `filterMap` equals filtering out the removed foods and
renaming the rest. -/
theorem filterMap_applyCorrection (corrections : List CorrectionResult)
    (foods : List DetectedFood) :
    foods.filterMap (applyCorrection corrections) =
      (foods.filter (fun f => !isMarkedRemoved corrections f)).map
        (renameFood corrections) := by
  induction foods with
  | nil => rfl
  | cons f fs ih =>
    by_cases hf : isMarkedRemoved corrections f <;>
      simp [List.filterMap_cons, List.filter_cons,
        applyCorrection_characterization, hf, ih]

/-- C5: applying user corrections drops every item marked removed,
substitutes the name of every replaced item (other fields unchanged,
which is what `renameFood` does), passes the rest through unchanged, and
sets the new score to `min(100, old + 5 * number of removed corrections)`;
the verdict becomes `safe` exactly when the new score reaches 75 and the
old verdict was `borderline` — it is never demoted, and a non-`borderline`
verdict is never changed. -/
theorem handleCorrections_spec (foods : List DetectedFood)
    (corrections : List CorrectionResult) (score : ℤ)
    (verdict : KetoVerdict) :
    (handleCorrections foods corrections score verdict).updatedFoods =
      (foods.filter (fun f => !isMarkedRemoved corrections f)).map
        (renameFood corrections) ∧
    (handleCorrections foods corrections score verdict).newScore =
      min 100 (score +
        ((corrections.filter (fun c => c.action == .removed)).length : ℤ) * 5) ∧
    (handleCorrections foods corrections score verdict).newVerdict =
      (if (handleCorrections foods corrections score verdict).newScore ≥ 75 ∧
          verdict = .borderline then .safe else verdict) ∧
    (verdict ≠ .borderline →
      (handleCorrections foods corrections score verdict).newVerdict =
        verdict) ∧
    ((handleCorrections foods corrections score verdict).newScore < 75 →
      (handleCorrections foods corrections score verdict).newVerdict =
        verdict) := by
  refine ⟨filterMap_applyCorrection corrections foods, rfl, rfl, ?_, ?_⟩
  · intro hv
    simp only [handleCorrections]
    split_ifs with hc
    · exact absurd hc.2 hv
    · rfl
  · intro hs
    simp only [handleCorrections] at hs ⊢
    split_ifs with hc
    · exact absurd hc.1 (by omega)
    · rfl

/-- Five detected foods, as in the spec's worked example. -/
def c5Foods : List DetectedFood :=
  [⟨"rice", 9/10, some "1 cup", .high, true⟩,
   ⟨"chicken", 95/100, none, .low, false⟩,
   ⟨"sauce", 6/10, none, .medium, false⟩,
   ⟨"broccoli", 9/10, none, .low, false⟩,
   ⟨"bread", 8/10, none, .high, true⟩]

/-- Two `removed` corrections against `c5Foods`. -/
def c5Corrections : List CorrectionResult :=
  [⟨⟨"rice", 9/10, some "1 cup", .high, true⟩, .removed, none⟩,
   ⟨⟨"bread", 8/10, none, .high, true⟩, .removed, none⟩]

/-- Witness for C5: removing 2 of 5 items at starting score 60 yields
score 70, and 70 < 75 keeps the verdict `borderline`. -/
theorem handleCorrections_spec_witness :
    (handleCorrections c5Foods c5Corrections 60 .borderline).newScore = 70 ∧
    (handleCorrections c5Foods c5Corrections 60 .borderline).newVerdict =
      .borderline := by
  have h := handleCorrections_spec c5Foods c5Corrections 60 .borderline
  refine ⟨?_, ?_⟩
  · rw [h.2.1]; decide
  · exact h.2.2.2.2 (by rw [h.2.1]; decide)
